import Mathlib

/-!
Verification development for the x402 facilitator.

Shallow embedding of the facilitator's network registry (`src/network.rs`),
rate-limit configuration (`src/rate_limit.rs`), and HTTP handler layer
(`src/handlers.rs`).  Data types that live in modules of this repository
outside the provided sources (`types.rs`, `chain.rs`, `facilitator_local.rs`)
are modelled from the specification's data model and error taxonomy, as noted
on each such definition.
-/

namespace X402

/-- Supported networks, translated from the `Network` enum in `src/network.rs`. -/
inductive Network where
  | Monad
  | MonadTestnet
  | Solana
  | SolanaDevnet
deriving DecidableEq, Repr

/-- Chain family of a network, translated from `NetworkFamily` in `src/network.rs`. -/
inductive NetworkFamily where
  | Evm
  | Solana
deriving DecidableEq, Repr

/-- Translation of `impl From<Network> for NetworkFamily` in `src/network.rs`. -/
def NetworkFamily.ofNetwork : Network → NetworkFamily
  | .Monad => .Evm
  | .MonadTestnet => .Evm
  | .Solana => .Solana
  | .SolanaDevnet => .Solana

/-- Whether a family is the EVM family. -/
def NetworkFamily.isEvm : NetworkFamily → Bool
  | .Evm => true
  | .Solana => false

/-- Translation of `Network::variants` in `src/network.rs`. -/
def Network.variants : List Network :=
  [.Monad, .MonadTestnet, .Solana, .SolanaDevnet]

/-- Modelled from the spec: `MixedAddress` (defined in `types.rs`, which is not
among the provided sources) is a tagged union holding either a 20-byte EVM
address or a Solana public key.  A Solana public key is represented here by its
base58 string form, the form in which `src/network.rs` writes it down. -/
inductive MixedAddress where
  | Evm (bytes : List Nat)
  | Solana (pubkey : String)
deriving DecidableEq, Repr

/-- Chain family of the active variant of a `MixedAddress`. -/
def MixedAddress.family : MixedAddress → NetworkFamily
  | .Evm _ => .Evm
  | .Solana _ => .Solana

/-- An EVM address must hold exactly 20 bytes; a Solana public key has no byte
constraint in this representation. -/
def MixedAddress.sizeOk : MixedAddress → Bool
  | .Evm bytes => bytes.length == 20
  | .Solana _ => true

/-- Modelled from the spec: `TokenAsset` from `types.rs` (not among the
provided sources): an address together with its network. -/
structure TokenAsset where
  address : MixedAddress
  network : Network
deriving DecidableEq, Repr

/-- Modelled from the spec: the EIP-712 domain parameters of a token
deployment (`types.rs`, not among the provided sources). -/
structure TokenDeploymentEip712 where
  name : String
  version : String
deriving DecidableEq, Repr

/-- Modelled from the spec: `TokenDeployment` from `types.rs` (not among the
provided sources): asset, decimals and optional EIP-712 domain. -/
structure TokenDeployment where
  asset : TokenAsset
  decimals : Nat
  eip712 : Option TokenDeploymentEip712
deriving DecidableEq, Repr

/-- A known USDC deployment, wrapping a `TokenDeployment` as the
`USDCDeployment` newtype does in `src/network.rs`. -/
structure USDCDeployment where
  deployment : TokenDeployment
deriving DecidableEq, Repr

/-- Translation of the `USDC_MONAD` static in `src/network.rs`
(address `0x754704Bc059F8C67012fEd69BC8A327a5aafb603`). -/
def USDC_MONAD : USDCDeployment :=
  ⟨{ asset := { address := .Evm [0x75, 0x47, 0x04, 0xBC, 0x05, 0x9F, 0x8C, 0x67,
                                 0x01, 0x2F, 0xED, 0x69, 0xBC, 0x8A, 0x32, 0x7A,
                                 0x5A, 0xAF, 0xB6, 0x03],
                network := .Monad },
     decimals := 6,
     eip712 := some { name := "USDC", version := "2" } }⟩

/-- Translation of the `USDC_MONAD_TESTNET` static in `src/network.rs`
(address `0x534b2f3A21130d7a60830c2Df862319e593943A3`). -/
def USDC_MONAD_TESTNET : USDCDeployment :=
  ⟨{ asset := { address := .Evm [0x53, 0x4B, 0x2F, 0x3A, 0x21, 0x13, 0x0D, 0x7A,
                                 0x60, 0x83, 0x0C, 0x2D, 0xF8, 0x62, 0x31, 0x9E,
                                 0x59, 0x39, 0x43, 0xA3],
                network := .MonadTestnet },
     decimals := 6,
     eip712 := some { name := "USDC", version := "2" } }⟩

/-- Translation of the `USDC_SOLANA` static in `src/network.rs`. -/
def USDC_SOLANA : USDCDeployment :=
  ⟨{ asset := { address := .Solana "EPjFWdd5AufqSSqeM2qN1xzybapC8G4wEGGkZwyTDt1v",
                network := .Solana },
     decimals := 6,
     eip712 := none }⟩

/-- Translation of the `USDC_SOLANA_DEVNET` static in `src/network.rs`. -/
def USDC_SOLANA_DEVNET : USDCDeployment :=
  ⟨{ asset := { address := .Solana "4zMMC9srt5Ri5X14GAgXhaHii3GnPAEERYPJgZJDncDU",
                network := .SolanaDevnet },
     decimals := 6,
     eip712 := none }⟩

/-- Translation of `USDCDeployment::by_network` in `src/network.rs`.  The Rust
match is exhaustive over the closed `Network` enum, so the function is total
and the "panic if unsupported" case in its doc comment cannot occur. -/
def USDCDeployment.by_network : Network → USDCDeployment
  | .Monad => USDC_MONAD
  | .MonadTestnet => USDC_MONAD_TESTNET
  | .Solana => USDC_SOLANA
  | .SolanaDevnet => USDC_SOLANA_DEVNET

/-- Every network is listed in `Network.variants`. -/
theorem Network.mem_variants (n : Network) : n ∈ Network.variants := by
  cases n <;> simp [Network.variants]

/-- Modelled from the spec: `FacilitatorErrorReason` (defined in `types.rs`,
not among the provided sources), the outward reason vocabulary of the error
mapping table: `InvalidScheme`, `InvalidNetwork`, `InsufficientFunds`, and a
free-form message. -/
inductive FacilitatorErrorReason where
  | InvalidScheme
  | InvalidNetwork
  | InsufficientFunds
  | FreeForm (msg : String)
deriving DecidableEq, Repr

/-- Modelled from the spec: `VerifyResponse` from `types.rs` (not among the
provided sources): `{ is_valid, payer, invalid_reason }`, where
`invalid_reason` is populated iff `is_valid` is false. -/
structure VerifyResponse where
  is_valid : Bool
  payer : Option MixedAddress
  invalid_reason : Option FacilitatorErrorReason
deriving DecidableEq, Repr

/-- Modelled from the spec: the `VerifyResponse::invalid` constructor used by
`src/handlers.rs`: a negative result carrying the optional payer and the
reason. -/
def VerifyResponse.invalid (payer : Option MixedAddress)
    (reason : FacilitatorErrorReason) : VerifyResponse :=
  { is_valid := false, payer := payer, invalid_reason := some reason }

/-- Modelled from the spec: a positive `VerifyResponse` for a known payer. -/
def VerifyResponse.valid (payer : MixedAddress) : VerifyResponse :=
  { is_valid := true, payer := some payer, invalid_reason := none }

/-- Modelled from the spec: unified transaction state
(`Pending | Confirmed | Failed | NotFound`). -/
inductive TxState where
  | Pending
  | Confirmed
  | Failed
  | NotFound
deriving DecidableEq, Repr

/-- Modelled from the spec: `TransactionStatus` from `types.rs` (not among the
provided sources). -/
structure TransactionStatus where
  state : TxState
  block_number : Option Nat
  confirmations : Option Nat
  error : Option String
deriving DecidableEq, Repr

/-- Modelled from the spec: `TransactionHash` from `types.rs` (not among the
provided sources): a tagged union of an EVM transaction hash (kept as its hex
digits, without the `0x` marker) or a Solana transaction signature (kept as
its base58 string). -/
inductive TransactionHash where
  | Evm (hexDigits : String)
  | Solana (base58 : String)
deriving DecidableEq, Repr

/-- One supported `{scheme, network}` pair, as returned by the facilitator's
`supported()` (modelled from the spec's capability-matrix description). -/
structure SupportedKind where
  scheme : String
  network : Network
deriving DecidableEq, Repr

/-- Modelled from the spec and the pattern bindings of the `IntoResponse`
implementation in `src/handlers.rs`: the `FacilitatorLocalError` enum lives in
`chain.rs`, which is not among the provided sources.  Variants and their payer
payloads follow the spec's error table and the fields `src/handlers.rs`
binds; diagnostic fields that `src/handlers.rs` ignores (the `..` patterns)
are collapsed to a single `detail` string. -/
inductive FacilitatorLocalError where
  | SchemeMismatch (payer : Option MixedAddress) (detail : String)
  | ReceiverMismatch (payer : MixedAddress) (detail : String)
  | InvalidSignature (payer : MixedAddress) (detail : String)
  | InvalidTiming (payer : MixedAddress) (detail : String)
  | InsufficientValue (payer : MixedAddress)
  | NetworkMismatch (payer : Option MixedAddress) (detail : String)
  | UnsupportedNetwork (payer : Option MixedAddress)
  | ContractCall (detail : String)
  | InvalidAddress (detail : String)
  | ClockError (detail : String)
  | DecodingError (reason : String)
  | InsufficientFunds (payer : MixedAddress)
deriving DecidableEq, Repr

/-- Observable JSON body of an HTTP response produced by the handlers in
`src/handlers.rs`. -/
inductive JsonBody where
  | verifyBody (v : VerifyResponse)
  | errorMsg (error : String)
  | statusBody (t : TransactionStatus)
  | supportedBody (s : List SupportedKind)
deriving DecidableEq, Repr

/-- An HTTP response observed as a status code and a JSON body. -/
abbrev HttpResponse := Nat × JsonBody

/-- Translation of the helper `invalid_schema` in `src/handlers.rs`. -/
def invalid_schema (payer : Option MixedAddress) : VerifyResponse :=
  VerifyResponse.invalid payer .InvalidScheme

/-- Translation of `impl IntoResponse for FacilitatorLocalError` in
`src/handlers.rs` (lines 260-312). -/
def FacilitatorLocalError.intoResponse : FacilitatorLocalError → HttpResponse
  | .SchemeMismatch payer _ => (200, .verifyBody (invalid_schema payer))
  | .ReceiverMismatch payer _ => (200, .verifyBody (invalid_schema (some payer)))
  | .InvalidSignature payer _ => (200, .verifyBody (invalid_schema (some payer)))
  | .InvalidTiming payer _ => (200, .verifyBody (invalid_schema (some payer)))
  | .InsufficientValue payer => (200, .verifyBody (invalid_schema (some payer)))
  | .NetworkMismatch payer _ =>
      (200, .verifyBody (VerifyResponse.invalid payer .InvalidNetwork))
  | .UnsupportedNetwork payer =>
      (200, .verifyBody (VerifyResponse.invalid payer .InvalidNetwork))
  | .ContractCall _ => (400, .errorMsg "Invalid request")
  | .InvalidAddress _ => (400, .errorMsg "Invalid request")
  | .ClockError _ => (400, .errorMsg "Invalid request")
  | .DecodingError reason =>
      (200, .verifyBody (VerifyResponse.invalid none (.FreeForm reason)))
  | .InsufficientFunds payer =>
      (200, .verifyBody (VerifyResponse.invalid (some payer) .InsufficientFunds))

/-- Whether a JSON body is a `VerifyResponse` body. -/
def JsonBody.isVerifyBody : JsonBody → Bool
  | .verifyBody _ => true
  | _ => false

/-- Translation of `get_supported` in `src/handlers.rs`: the facilitator's
`supported()` outcome (success list or a `FacilitatorLocalError`) is the
handler's only input that matters, so the handler is embedded as a function of
that outcome. -/
def get_supported (outcome : Except FacilitatorLocalError (List SupportedKind)) :
    HttpResponse :=
  match outcome with
  | .ok supported => (200, .supportedBody supported)
  | .error e => e.intoResponse

/-- Translation of `get_health` in `src/handlers.rs`: its body is exactly a
call to `get_supported` on the same state. -/
def get_health (outcome : Except FacilitatorLocalError (List SupportedKind)) :
    HttpResponse :=
  get_supported outcome

/-- Whether a character is a hexadecimal digit. -/
def isHexDigit (c : Char) : Bool :=
  c.isDigit || ('a' ≤ c && c ≤ 'f') || ('A' ≤ c && c ≤ 'F')

/-- The base58 alphabet used by Solana identifiers (Bitcoin base58: no `0`,
`O`, `I`, `l`). -/
def base58Alphabet : List Char :=
  "123456789ABCDEFGHJKLMNPQRSTUVWXYZabcdefghijkmnopqrstuvwxyz".toList

/-- Whether a character belongs to the base58 alphabet. -/
def isBase58Char (c : Char) : Bool :=
  base58Alphabet.contains c

/-- Modelled from the spec: the family-specific `TransactionHash` parse
(the `Deserialize` implementation in `types.rs`, not among the provided
sources).  Per the spec's boundary rule, an EVM-style identifier is
fixed-length hex (32 bytes, so 64 hex digits) behind the recognized `0x`
marker; a Solana-style identifier is nonempty base58 without that marker; a
string matching neither is rejected. -/
def parseTransactionHash (s : String) : Option TransactionHash :=
  match s.toList with
  | '0' :: 'x' :: rest =>
      if rest.length == 64 && rest.all isHexDigit then
        some (.Evm (String.mk rest))
      else
        none
  | chars =>
      if !chars.isEmpty && chars.all isBase58Char then
        some (.Solana (String.mk chars))
      else
        none

/-- Value of a single hexadecimal digit character. -/
def hexVal (c : Char) : Option Nat :=
  if '0' ≤ c ∧ c ≤ '9' then some (c.toNat - '0'.toNat)
  else if 'a' ≤ c ∧ c ≤ 'f' then some (c.toNat - 'a'.toNat + 10)
  else if 'A' ≤ c ∧ c ≤ 'F' then some (c.toNat - 'A'.toNat + 10)
  else none

/-- JSON string-body unescaping, as `serde_json` performs it when
`src/handlers.rs` (line 219) parses the quoted path string
`format!("\"{}\"", tx_hash_str)`: a raw `"` would close the JSON string early
and leave trailing characters (an error), a raw control character is an
error, a backslash introduces one of the JSON escapes (`\" \\ \/ \b \f \n \r
\t \uXXXX`, with surrogate pairs combined and lone surrogates rejected), and
every other character stands for itself. -/
def jsonUnescapeChars : List Char → Option (List Char)
  | [] => some []
  | '"' :: _ => none
  | '\\' :: '"' :: rest => Option.map (fun l => '"' :: l) (jsonUnescapeChars rest)
  | '\\' :: '\\' :: rest => Option.map (fun l => '\\' :: l) (jsonUnescapeChars rest)
  | '\\' :: '/' :: rest => Option.map (fun l => '/' :: l) (jsonUnescapeChars rest)
  | '\\' :: 'b' :: rest => Option.map (fun l => Char.ofNat 8 :: l) (jsonUnescapeChars rest)
  | '\\' :: 'f' :: rest => Option.map (fun l => Char.ofNat 12 :: l) (jsonUnescapeChars rest)
  | '\\' :: 'n' :: rest => Option.map (fun l => Char.ofNat 10 :: l) (jsonUnescapeChars rest)
  | '\\' :: 'r' :: rest => Option.map (fun l => Char.ofNat 13 :: l) (jsonUnescapeChars rest)
  | '\\' :: 't' :: rest => Option.map (fun l => Char.ofNat 9 :: l) (jsonUnescapeChars rest)
  | '\\' :: 'u' :: a :: b :: c :: d :: rest =>
      match hexVal a, hexVal b, hexVal c, hexVal d with
      | some ha, some hb, some hc, some hd =>
          let n := ((ha * 16 + hb) * 16 + hc) * 16 + hd
          if 0xD800 ≤ n ∧ n ≤ 0xDBFF then
            match rest with
            | '\\' :: 'u' :: a2 :: b2 :: c2 :: d2 :: rest2 =>
                match hexVal a2, hexVal b2, hexVal c2, hexVal d2 with
                | some e1, some e2, some e3, some e4 =>
                    let m := ((e1 * 16 + e2) * 16 + e3) * 16 + e4
                    if 0xDC00 ≤ m ∧ m ≤ 0xDFFF then
                      Option.map
                        (fun l =>
                          Char.ofNat (0x10000 + (n - 0xD800) * 0x400 + (m - 0xDC00)) :: l)
                        (jsonUnescapeChars rest2)
                    else none
                | _, _, _, _ => none
            | _ => none
          else if 0xDC00 ≤ n ∧ n ≤ 0xDFFF then none
          else Option.map (fun l => Char.ofNat n :: l) (jsonUnescapeChars rest)
      | _, _, _, _ => none
  | '\\' :: _ => none
  | c :: rest =>
      if c.toNat < 0x20 then none
      else Option.map (fun l => c :: l) (jsonUnescapeChars rest)

/-- JSON string-body unescaping on `String`. -/
def jsonUnescape (s : String) : Option String :=
  Option.map String.mk (jsonUnescapeChars s.toList)

/-- The handler-level parse of a transaction-hash path string, modelling
`serde_json::from_str::<TransactionHash>(&format!("\"{}\"", tx_hash_str))`
in `src/handlers.rs` (line 219): the path string is first interpreted as the
body of a JSON string (escape sequences applied), and the decoded string is
then parsed by the family-specific `TransactionHash` format rule. -/
def parseTransactionHashPath (s : String) : Option TransactionHash :=
  (jsonUnescape s).bind parseTransactionHash

/-- Translation of `get_transaction_status` in `src/handlers.rs` (lines
213-254): parse the path string as a `TransactionHash` through the JSON
round-trip of line 219; on failure answer 400 without consulting the
facilitator; otherwise consult the facilitator's `get_transaction_status`
(embedded as the `query` argument, since `facilitator_local.rs` is not among
the provided sources) and map its outcome to 200 or 500. -/
def get_transaction_status
    (query : TransactionHash → Except String TransactionStatus)
    (tx_hash_str : String) : HttpResponse :=
  match parseTransactionHashPath tx_hash_str with
  | none =>
      (400, .errorMsg ("Invalid transaction hash format: " ++ tx_hash_str ++
        ". Expected EVM (0x-prefixed hex) or Solana (base58) format."))
  | some hash =>
      match query hash with
      | .ok status => (200, .statusBody status)
      | .error e => (500, .errorMsg ("Failed to query transaction status: " ++ e))

/-- Modelled from the spec: the signed transfer authorization carried by a
payment payload (sender, receiver, value, validity window, nonce, signature
bytes).  Defined in `types.rs`, not among the provided sources. -/
structure ExactAuthorization where
  sender : MixedAddress
  receiver : MixedAddress
  value : Nat
  validAfter : Nat
  validBefore : Nat
  nonce : Nat
  signature : List Nat
deriving DecidableEq, Repr

/-- Modelled from the spec: `PaymentPayload` from `types.rs` (not among the
provided sources): scheme identifier, network, signed authorization. -/
structure PaymentPayload where
  scheme : String
  network : Network
  authorization : ExactAuthorization
deriving DecidableEq, Repr

/-- Modelled from the spec: `PaymentRequirements` from `types.rs` (not among
the provided sources): required network, scheme, pay-to address, asset and
minimum amount. -/
structure PaymentRequirements where
  network : Network
  scheme : String
  pay_to : MixedAddress
  asset : TokenAsset
  amount : Nat
deriving DecidableEq, Repr

/-- Outcome of the chain adapter's on-chain funds check, embedded as an
explicit input of the decision engine: sufficient balance, balance too low,
or an RPC/contract failure. -/
inductive FundsCheck where
  | sufficient
  | insufficient
  | rpcFailure (detail : String)
deriving DecidableEq, Repr

/-- Modelled from the spec: the facilitator decision engine's `verify`
(`facilitator_local.rs`, not among the provided sources), following the
spec's fixed check order: (1) resolve the requirements' network against the
registry, (2) scheme, (3) network, (4) receiver, (5) signature, (6) clock and
time window, (7) value, (8) on-chain funds.  The chain adapter's signature
verdict, the clock reading and the funds-check outcome are I/O results and
are passed in as explicit inputs; malformed-input errors (`InvalidAddress`,
`DecodingError`) arise at the JSON boundary, before these typed inputs exist,
and so do not appear in the engine itself. -/
def verify (sigValid : Bool) (now : Option Nat) (funds : FundsCheck)
    (payload : PaymentPayload) (req : PaymentRequirements) :
    Except FacilitatorLocalError VerifyResponse :=
  let payer := payload.authorization.sender
  if req.network ∉ Network.variants then
    .error (.UnsupportedNetwork (some payer))
  else if payload.scheme ≠ req.scheme then
    .error (.SchemeMismatch (some payer) payload.scheme)
  else if payload.network ≠ req.network then
    .error (.NetworkMismatch (some payer) "network mismatch")
  else if payload.authorization.receiver ≠ req.pay_to then
    .error (.ReceiverMismatch payer "receiver mismatch")
  else if !sigValid then
    .error (.InvalidSignature payer "signature mismatch")
  else
    match now with
    | none => .error (.ClockError "clock unavailable")
    | some t =>
      if !(payload.authorization.validAfter ≤ t ∧ t ≤ payload.authorization.validBefore) then
        .error (.InvalidTiming payer "outside validity window")
      else if payload.authorization.value < req.amount then
        .error (.InsufficientValue payer)
      else
        match funds with
        | .sufficient => .ok (VerifyResponse.valid payer)
        | .insufficient => .error (.InsufficientFunds payer)
        | .rpcFailure detail => .error (.ContractCall detail)

/-- Translation of `post_verify` in `src/handlers.rs`: a successful engine
verdict is returned with status 200; an engine error goes through
`FacilitatorLocalError.intoResponse`. -/
def post_verify (sigValid : Bool) (now : Option Nat) (funds : FundsCheck)
    (payload : PaymentPayload) (req : PaymentRequirements) : HttpResponse :=
  match verify sigValid now funds payload req with
  | .ok v => (200, .verifyBody v)
  | .error e => e.intoResponse

/-- Translation of `RateLimitConfig` in `src/rate_limit.rs`: the four
per-minute limits.  Rust's `u32` values are embedded as `Nat` bounded by the
`u32` range in `parseU32`. -/
structure RateLimitConfig where
  verify_per_minute : Nat
  settle_per_minute : Nat
  transaction_status_per_minute : Nat
  general_per_minute : Nat
deriving DecidableEq, Repr

/-- Translation of `impl Default for RateLimitConfig` in `src/rate_limit.rs`. -/
def RateLimitConfig.default : RateLimitConfig :=
  { verify_per_minute := 60, settle_per_minute := 30,
    transaction_status_per_minute := 120, general_per_minute := 300 }

/-- Rust's `str::parse::<u32>()` on the environment value: an optional `+`
sign, then one or more decimal digits, with the result inside the `u32`
range; anything else fails. -/
def parseU32 (s : String) : Option Nat :=
  let digits :=
    match s.toList with
    | '+' :: rest => rest
    | chars => chars
  if !digits.isEmpty && digits.all Char.isDigit then
    let n := digits.foldl (fun acc c => acc * 10 + (c.toNat - '0'.toNat)) 0
    if n < 2 ^ 32 then some n else none
  else
    none

/-- Translation of `RateLimitConfig::from_env` in `src/rate_limit.rs` (lines
45-77).  The process environment is embedded as an explicit map from variable
name to optional value; `env::var(..).ok().and_then(parse).unwrap_or(d)`
becomes `(Option.bind .. parseU32).getD d`. -/
def RateLimitConfig.from_env (env : String → Option String) :
    Option RateLimitConfig :=
  let verify := (Option.bind (env "RATE_LIMIT_VERIFY_PER_MINUTE") parseU32).getD 60
  let settle := (Option.bind (env "RATE_LIMIT_SETTLE_PER_MINUTE") parseU32).getD 30
  let transaction_status :=
    (Option.bind (env "RATE_LIMIT_TRANSACTION_STATUS_PER_MINUTE") parseU32).getD 120
  let general := (Option.bind (env "RATE_LIMIT_GENERAL_PER_MINUTE") parseU32).getD 300
  if verify = 0 ∧ settle = 0 ∧ transaction_status = 0 ∧ general = 0 then
    none
  else
    some { verify_per_minute := verify, settle_per_minute := settle,
           transaction_status_per_minute := transaction_status,
           general_per_minute := general }

/-- Claim C1: every facilitator error of kind SchemeMismatch, ReceiverMismatch,
InvalidSignature, InvalidTiming or InsufficientValue maps outward to HTTP 200
with a `VerifyResponse` that has `is_valid = false` and reason `InvalidScheme`,
echoing the payer when known: always for the latter four kinds, and whenever
present for SchemeMismatch. -/
theorem c1_mismatch_errors_map_to_invalid_scheme
    (p : Option MixedAddress) (a : MixedAddress) (d : String) :
    (FacilitatorLocalError.SchemeMismatch p d).intoResponse
        = (200, .verifyBody (VerifyResponse.invalid p .InvalidScheme))
    ∧ (FacilitatorLocalError.ReceiverMismatch a d).intoResponse
        = (200, .verifyBody (VerifyResponse.invalid (some a) .InvalidScheme))
    ∧ (FacilitatorLocalError.InvalidSignature a d).intoResponse
        = (200, .verifyBody (VerifyResponse.invalid (some a) .InvalidScheme))
    ∧ (FacilitatorLocalError.InvalidTiming a d).intoResponse
        = (200, .verifyBody (VerifyResponse.invalid (some a) .InvalidScheme))
    ∧ (FacilitatorLocalError.InsufficientValue a).intoResponse
        = (200, .verifyBody (VerifyResponse.invalid (some a) .InvalidScheme))
    ∧ (VerifyResponse.invalid p FacilitatorErrorReason.InvalidScheme).is_valid = false :=
  ⟨rfl, rfl, rfl, rfl, rfl, rfl⟩

/-- Claim C2 (amended): every facilitator error of kind NetworkMismatch or
UnsupportedNetwork maps outward to HTTP 200 with a `VerifyResponse` that has
`is_valid = false` and reason `InvalidNetwork`; and a payload whose scheme
matches the requirements' scheme but whose network differs from the
requirements' network is reported invalid with `InvalidNetwork` regardless of
any later-checked field's validity.  The original claim's "regardless of any
other field's validity" fails because the scheme check runs before the
network check. -/
theorem c2_network_errors_map_to_invalid_network :
    (∀ (p : Option MixedAddress) (d : String),
      (FacilitatorLocalError.NetworkMismatch p d).intoResponse
        = (200, .verifyBody (VerifyResponse.invalid p .InvalidNetwork)))
    ∧ (∀ p : Option MixedAddress,
      (FacilitatorLocalError.UnsupportedNetwork p).intoResponse
        = (200, .verifyBody (VerifyResponse.invalid p .InvalidNetwork)))
    ∧ (∀ (sigValid : Bool) (now : Option Nat) (funds : FundsCheck)
        (payload : PaymentPayload) (req : PaymentRequirements),
        payload.scheme = req.scheme →
        payload.network ≠ req.network →
        post_verify sigValid now funds payload req
          = (200, .verifyBody (VerifyResponse.invalid
              (some payload.authorization.sender) .InvalidNetwork))) := by
  refine ⟨fun p d => rfl, fun p => rfl, ?_⟩
  intro sigValid now funds payload req hscheme hnet
  unfold post_verify verify
  rw [if_neg (not_not_intro (Network.mem_variants req.network))]
  rw [if_neg (not_not_intro hscheme)]
  rw [if_pos hnet]
  rfl

/-- Witness for claim C2's amended theorem at a concrete payload whose scheme
matches and whose network differs. -/
theorem c2_network_errors_map_to_invalid_network_witness :
    post_verify true (some 5) .sufficient
      { scheme := "exact", network := .Solana,
        authorization := { sender := .Evm [1], receiver := .Evm [2], value := 10,
                           validAfter := 0, validBefore := 9, nonce := 0,
                           signature := [] } }
      { network := .Monad, scheme := "exact", pay_to := .Evm [2],
        asset := (USDCDeployment.by_network .Monad).deployment.asset,
        amount := 10 }
      = (200, .verifyBody (VerifyResponse.invalid (some (.Evm [1])) .InvalidNetwork)) :=
  c2_network_errors_map_to_invalid_network.2.2 true (some 5) .sufficient _ _
    rfl (by decide)

/-- Counterexample to claim C2 as stated: a payload whose scheme and network
both mismatch the requirements is reported with reason `InvalidScheme`, not
`InvalidNetwork`, because the scheme check runs before the network check. -/
theorem c2_counterexample_scheme_and_network_mismatch :
    let payload : PaymentPayload :=
      { scheme := "other", network := .Solana,
        authorization := { sender := .Evm [1], receiver := .Evm [2], value := 10,
                           validAfter := 0, validBefore := 9, nonce := 0,
                           signature := [] } }
    let req : PaymentRequirements :=
      { network := .Monad, scheme := "exact", pay_to := .Evm [2],
        asset := (USDCDeployment.by_network .Monad).deployment.asset,
        amount := 10 }
    payload.network ≠ req.network
    ∧ post_verify true (some 5) .sufficient payload req
        = (200, .verifyBody (VerifyResponse.invalid (some (.Evm [1])) .InvalidScheme))
    ∧ (VerifyResponse.invalid (some (.Evm [1])) .InvalidScheme).invalid_reason
        ≠ some .InvalidNetwork := by
  refine ⟨by decide, ?_, by decide⟩
  rfl

/-- Claim C3: facilitator errors of kind ContractCall, InvalidAddress or
ClockError are rejected outright as HTTP 400 with body
`error = "Invalid request"`, and none of them produces a `VerifyResponse`
body. -/
theorem c3_infrastructure_errors_rejected_outright (d : String) :
    (FacilitatorLocalError.ContractCall d).intoResponse
        = (400, .errorMsg "Invalid request")
    ∧ (FacilitatorLocalError.InvalidAddress d).intoResponse
        = (400, .errorMsg "Invalid request")
    ∧ (FacilitatorLocalError.ClockError d).intoResponse
        = (400, .errorMsg "Invalid request")
    ∧ ((FacilitatorLocalError.ContractCall d).intoResponse).2.isVerifyBody = false
    ∧ ((FacilitatorLocalError.InvalidAddress d).intoResponse).2.isVerifyBody = false
    ∧ ((FacilitatorLocalError.ClockError d).intoResponse).2.isVerifyBody = false :=
  ⟨rfl, rfl, rfl, rfl, rfl, rfl⟩

/-- Claim C4: the USDC deployment lookup is total over the `Network` catalog,
and for every network the returned deployment's asset carries that network,
its address variant matches the network's chain family (an EVM address of
exactly 20 bytes for the EVM networks, a Solana public key for the Solana
networks), and the EIP-712 domain is present exactly for the EVM family. -/
theorem c4_usdc_deployment_invariants (n : Network) :
    (USDCDeployment.by_network n).deployment.asset.network = n
    ∧ (USDCDeployment.by_network n).deployment.asset.address.family
        = NetworkFamily.ofNetwork n
    ∧ (USDCDeployment.by_network n).deployment.asset.address.sizeOk = true
    ∧ (USDCDeployment.by_network n).deployment.eip712.isSome
        = (NetworkFamily.ofNetwork n).isEvm := by
  cases n <;> exact ⟨rfl, rfl, rfl, rfl⟩

/-- The handler-level parse applies JSON escapes before the family rule: the
six-character path string backslash-u-0-0-4-1 decodes to "A" and parses as a
Solana hash, exactly as the literal "A" does, while a lone backslash fails. -/
theorem parseTransactionHashPath_unescapes :
    parseTransactionHashPath "\\u0041" = some (.Solana "A")
    ∧ parseTransactionHashPath "A" = some (.Solana "A")
    ∧ parseTransactionHashPath "\\" = none :=
  ⟨rfl, rfl, rfl⟩

/-- Claim C5: a transaction-hash path string that, after the handler's JSON
round-trip, parses as neither an EVM nor a Solana transaction hash is
answered with HTTP 400 and an error message, and the response is the same
whatever the facilitator's status lookup would answer, so no chain adapter is
consulted. -/
theorem c5_unparseable_hash_rejected_before_adapter (s : String)
    (h : parseTransactionHashPath s = none) :
    (∀ query : TransactionHash → Except String TransactionStatus,
      get_transaction_status query s
        = (400, .errorMsg ("Invalid transaction hash format: " ++ s ++
            ". Expected EVM (0x-prefixed hex) or Solana (base58) format.")))
    ∧ ∀ q1 q2 : TransactionHash → Except String TransactionStatus,
        get_transaction_status q1 s = get_transaction_status q2 s := by
  constructor
  · intro query
    unfold get_transaction_status
    rw [h]
  · intro q1 q2
    unfold get_transaction_status
    rw [h]

/-- Witness for claim C5 at the concrete string "not-a-hash", which has
characters outside both hash alphabets. -/
theorem c5_unparseable_hash_rejected_witness :
    get_transaction_status
        (fun _ => Except.ok { state := .NotFound, block_number := none,
                              confirmations := none, error := none })
        "not-a-hash"
      = (400, .errorMsg ("Invalid transaction hash format: " ++ "not-a-hash" ++
          ". Expected EVM (0x-prefixed hex) or Solana (base58) format.")) :=
  (c5_unparseable_hash_rejected_before_adapter "not-a-hash" rfl).1
    (fun _ => Except.ok { state := .NotFound, block_number := none,
                          confirmations := none, error := none })

/-- Claim C6: a facilitator error of kind InsufficientFunds maps outward to
HTTP 200 with a `VerifyResponse` that has `is_valid = false`, reason
`InsufficientFunds`, and the payer populated. -/
theorem c6_insufficient_funds_mapping (payer : MixedAddress) :
    (FacilitatorLocalError.InsufficientFunds payer).intoResponse
      = (200, .verifyBody { is_valid := false, payer := some payer,
                            invalid_reason := some .InsufficientFunds }) :=
  rfl

/-- Claim C7: a facilitator error of kind DecodingError maps outward to HTTP
200 with a `VerifyResponse` that has `is_valid = false`, reason
`FreeForm` carrying the message unchanged, and no payer echoed. -/
theorem c7_decoding_error_mapping (msg : String) :
    (FacilitatorLocalError.DecodingError msg).intoResponse
      = (200, .verifyBody { is_valid := false, payer := none,
                            invalid_reason := some (.FreeForm msg) }) :=
  rfl

/-- Claim C8: the network registry is exactly the four variants Monad,
MonadTestnet, Solana, SolanaDevnet, in that order, and their chain families
are Evm, Evm, Solana, Solana respectively. -/
theorem c8_network_catalog :
    Network.variants = [.Monad, .MonadTestnet, .Solana, .SolanaDevnet]
    ∧ Network.variants.length = 4
    ∧ (∀ n : Network, n ∈ Network.variants)
    ∧ NetworkFamily.ofNetwork .Monad = .Evm
    ∧ NetworkFamily.ofNetwork .MonadTestnet = .Evm
    ∧ NetworkFamily.ofNetwork .Solana = .Solana
    ∧ NetworkFamily.ofNetwork .SolanaDevnet = .Solana :=
  ⟨rfl, rfl, Network.mem_variants, rfl, rfl, rfl, rfl⟩

/-- Claim C9: the health handler is the supported handler: for every outcome
of the facilitator's `supported()`, GET /health and GET /supported produce the
same response. -/
theorem c9_health_equals_supported
    (outcome : Except FacilitatorLocalError (List SupportedKind)) :
    get_health outcome = get_supported outcome :=
  rfl

/-- Claim C10: `RateLimitConfig.from_env` returns `none` exactly when all four
resolved per-minute limits are zero, and otherwise returns exactly those
resolved values, where each value is the parsed environment variable or its
default 60, 30, 120, 300 when unset or unparseable. -/
theorem c10_rate_limit_from_env (env : String → Option String) :
    (RateLimitConfig.from_env env = none ↔
      ((Option.bind (env "RATE_LIMIT_VERIFY_PER_MINUTE") parseU32).getD 60 = 0
        ∧ (Option.bind (env "RATE_LIMIT_SETTLE_PER_MINUTE") parseU32).getD 30 = 0
        ∧ (Option.bind (env "RATE_LIMIT_TRANSACTION_STATUS_PER_MINUTE") parseU32).getD 120 = 0
        ∧ (Option.bind (env "RATE_LIMIT_GENERAL_PER_MINUTE") parseU32).getD 300 = 0))
    ∧ ∀ c : RateLimitConfig, RateLimitConfig.from_env env = some c →
        c = { verify_per_minute :=
                (Option.bind (env "RATE_LIMIT_VERIFY_PER_MINUTE") parseU32).getD 60,
              settle_per_minute :=
                (Option.bind (env "RATE_LIMIT_SETTLE_PER_MINUTE") parseU32).getD 30,
              transaction_status_per_minute :=
                (Option.bind (env "RATE_LIMIT_TRANSACTION_STATUS_PER_MINUTE") parseU32).getD 120,
              general_per_minute :=
                (Option.bind (env "RATE_LIMIT_GENERAL_PER_MINUTE") parseU32).getD 300 } := by
  simp only [RateLimitConfig.from_env]
  constructor
  · split_ifs with h
    · simp [h]
    · simp [h]
  · intro c hc
    split_ifs at hc with h
    cases hc
    rfl

/-- Witness for claim C10 at the empty environment: all four limits resolve to
their defaults, so `from_env` returns that configuration. -/
theorem c10_rate_limit_from_env_witness :
    RateLimitConfig.from_env (fun _ => none)
        = some { verify_per_minute := 60, settle_per_minute := 30,
                 transaction_status_per_minute := 120, general_per_minute := 300 }
    ∧ ({ verify_per_minute := 60, settle_per_minute := 30,
         transaction_status_per_minute := 120,
         general_per_minute := 300 } : RateLimitConfig)
        = { verify_per_minute := 60, settle_per_minute := 30,
            transaction_status_per_minute := 120, general_per_minute := 300 } := by
  refine ⟨rfl, ?_⟩
  exact (c10_rate_limit_from_env (fun _ => none)).2
    { verify_per_minute := 60, settle_per_minute := 30,
      transaction_status_per_minute := 120, general_per_minute := 300 } rfl

end X402
